import Mathlib

/-
Verification of the resumable TMDb batch extractor
(src/tmdb-python-extractor.py) against its specification.

The Python program is shallowly embedded below.  External effects are
modelled explicitly:
  * HTTP traffic is a script of `HttpEvent`s supplied by an `Env`
    (one event per request attempt);
  * the checkpoint file and the output CSV are fields of the session
    state;
  * the operator console is a list of pending `Choice`s consumed by the
    prompt;
  * the while-loops run on explicit fuel (the loop bodies are otherwise
    faithful to the source).
Ghost logs (page fetches, detail fetches, written identifiers, abandoned
partitions, prompt count) are threaded through the state so that
temporal claims about the run can be stated as properties of the final
state.
-/

namespace TMDb

/-! ## Record transformer data model (extract_movie_data) -/

/-- A crew or cast entry of the detail payload; `.get` on a missing key
yields `none`. -/
structure Person where
  name : Option String := none
  job : Option String := none
deriving DecidableEq

/-- A named sub-entity (genre, production company). -/
structure NamedEntity where
  name : Option String := none
deriving DecidableEq

/-- The `credits` sub-object.  An absent `crew`/`cast` key behaves
exactly like an empty list in every use site of the source (the guard
`credits.get("crew")` only short-circuits the loop that an empty list
would skip anyway), so the lists are modelled directly. -/
structure Credits where
  crew : List Person := []
  cast : List Person := []
deriving DecidableEq

/-- The movie-detail payload: exactly the keys `extract_movie_data`
reads, each optional as under Python `dict.get`.  Scalar fields that the
program never inspects (only copies into the CSV) are kept as their
string rendering. -/
structure Detail where
  id : Option Nat := none
  title : Option String := none
  release_date : Option String := none
  runtime : Option String := none
  overview : Option String := none
  tagline : Option String := none
  vote_average : Option String := none
  vote_count : Option String := none
  popularity : Option String := none
  budget : Option String := none
  revenue : Option String := none
  original_language : Option String := none
  credits : Option Credits := none
  genres : List NamedEntity := []
  production_companies : List NamedEntity := []
deriving DecidableEq

/-- The CSV output row, fields in the `fieldnames` order of the source. -/
structure Record where
  id : String
  title : String
  release_date : String
  year : String
  runtime : String
  overview : String
  genres : String
  director : String
  cast : String
  vote_average : String
  vote_count : String
  popularity : String
  budget : String
  revenue : String
  original_language : String
  production_companies : String
  tagline : String
deriving DecidableEq

/-- Models the chained Python replacements
`s.replace("\n", " ").replace("\r", " ")`: both replace a single
character by a space, so the composition maps each newline or carriage
return to a space. -/
def normalizeWhitespace (s : String) : String :=
  String.mk (s.data.map (fun c => if c = '\n' ∨ c = '\r' then ' ' else c))

/-- Models the Python slice `s[:n]` (first `n` characters). -/
def strTake (s : String) (n : Nat) : String :=
  String.mk (s.data.take n)

/-- `TMDbExtractor.extract_movie_data`: raw detail payload to output
row, `none` when the payload is absent (`if not details: return None`). -/
def extract_movie_data (details : Option Detail) : Option Record :=
  match details with
  | none => none
  | some d =>
    let crew := match d.credits with
      | some c => c.crew
      | none => []
    let director := match crew.find? (fun p => p.job == some "Director") with
      | some p => p.name.getD ""
      | none => ""
    let castList := match d.credits with
      | some c => c.cast
      | none => []
    let cast_names := (castList.take 10).map (fun p => p.name.getD "")
    let cast := String.intercalate ", " cast_names
    let genre_names := d.genres.map (fun g => g.name.getD "")
    let genres := String.intercalate ", " genre_names
    let company_names := d.production_companies.map (fun c => c.name.getD "")
    let production_companies := String.intercalate ", " company_names
    some {
      id := match d.id with
        | some n => toString n
        | none => ""
      title := d.title.getD ""
      release_date := d.release_date.getD ""
      year := match d.release_date with
        | some s => if s = "" then "" else strTake s 4
        | none => ""
      runtime := d.runtime.getD ""
      overview := normalizeWhitespace (d.overview.getD "")
      genres := genres
      director := director
      cast := cast
      vote_average := d.vote_average.getD ""
      vote_count := d.vote_count.getD ""
      popularity := d.popularity.getD ""
      budget := d.budget.getD ""
      revenue := d.revenue.getD ""
      original_language := d.original_language.getD ""
      production_companies := production_companies
      tagline := normalizeWhitespace (d.tagline.getD "")
    }

/-! ## Rate-limited fetch client (fetch_with_retry) -/

/-- A movie stub of a discover page's `results` list. -/
structure PageMovie where
  id : Option Nat := none
  title : Option String := none
deriving DecidableEq

/-- A parsed JSON body of a 200 response: either a discover page (has
key `results`), a single entity (has key `id`), or a shape with neither
key. -/
inductive Payload where
  | pageData (results : List PageMovie) (total_pages : Option Nat)
  | entity (d : Detail)
  | malformed
deriving DecidableEq

/-- The source's shape validation: `'results' in data or 'id' in data`. -/
def Payload.isValidShape : Payload → Bool
  | .pageData _ _ => true
  | .entity _ => true
  | .malformed => false

/-- `data.get("results", [])`. -/
def Payload.getResults : Payload → List PageMovie
  | .pageData rs _ => rs
  | _ => []

/-- `data.get("total_pages", 1)`. -/
def Payload.getTotalPages : Payload → Nat
  | .pageData _ tp => tp.getD 1
  | _ => 1

/-- The view of a payload that `extract_movie_data` takes through
`dict.get`: an entity exposes its fields, any other dict exposes none of
the detail keys. -/
def Payload.asDetail : Payload → Detail
  | .entity d => d
  | _ => {}

/-- Outcome of one request attempt: the HTTP status observed (a 200
carries its parsed body) or a raised transport exception. -/
inductive HttpEvent where
  | ok (p : Payload)
  | rateLimited
  | httpError (code : Nat)
  | timeout
  | connError
deriving DecidableEq

/-- `MAX_RETRIES = 3`. -/
def MAX_RETRIES : Nat := 3

/-- The body of `fetch_with_retry`'s `for attempt in range(1,
MAX_RETRIES + 1)` loop, one recursive call per attempt; each attempt
consumes the next scripted event (an exhausted script acts as a
timeout).  Returns the payload (or `none`) together with whether
`self.failed_requests` was incremented (the fall-out-of-the-loop path). -/
def fetchGo : Nat → List HttpEvent → Option Payload × Bool
  | 0, _ => (none, true)
  | n + 1, evs =>
    match evs with
    | [] => fetchGo n []
    | ev :: rest =>
      match ev with
      | .rateLimited => fetchGo n rest
      | .ok p => if p.isValidShape then (some p, false) else fetchGo n rest
      | .httpError c => if c = 401 ∨ c = 403 then (none, false) else fetchGo n rest
      | .timeout => fetchGo n rest
      | .connError => fetchGo n rest

/-- `TMDbExtractor.fetch_with_retry` on the scripted attempt outcomes of
one call. -/
def fetch_with_retry (evs : List HttpEvent) : Option Payload × Bool :=
  fetchGo MAX_RETRIES evs

/-! ## Checkpoint store (load_progress / save_progress) -/

/-- The JSON checkpoint document written by `save_progress`. -/
structure ProgressDoc where
  last_year : Option Nat
  last_page : Nat
  total_movies : Nat
  extracted_ids : List Nat
  last_updated : String
deriving DecidableEq

/-- State of the checkpoint file on disk: absent, present but not
parseable, or a parsed document. -/
inductive ProgressFileState where
  | absent
  | corrupt
  | valid (d : ProgressDoc)
deriving DecidableEq

/-- The in-memory progress dict held in `self.progress`. -/
structure Progress where
  last_year : Option Nat
  last_page : Nat
  total_movies : Nat
  extracted_ids : List Nat
deriving DecidableEq

/-- The dict `{"last_year": None, "last_page": 0, "total_movies": 0,
"extracted_ids": []}` returned when the file is absent or unreadable. -/
def emptyProgress : Progress :=
  { last_year := none, last_page := 0, total_movies := 0, extracted_ids := [] }

/-- `TMDbExtractor.load_progress`: a missing file and a file whose JSON
fails to parse both yield the empty progress dict. -/
def load_progress : ProgressFileState → Progress
  | .absent => emptyProgress
  | .corrupt => emptyProgress
  | .valid d =>
    { last_year := d.last_year, last_page := d.last_page,
      total_movies := d.total_movies, extracted_ids := d.extracted_ids }

/-- The document `TMDbExtractor.save_progress` writes (`last_updated`
stands for `datetime.now().isoformat()`). -/
def save_progress_doc (year page total_movies : Nat) (ids : List Nat)
    (ts : String) : ProgressDoc :=
  { last_year := some year, last_page := page, total_movies := total_movies,
    extracted_ids := ids, last_updated := ts }

/-! ## Session state, environment, and the main loop (run) -/

/-- The four answers accepted by `pause_on_error_prompt`
(choices 1, 2, 3, 4). -/
inductive Choice where
  | skipYear
  | retryPage
  | stopAll
  | continueAnyway
deriving DecidableEq

/-- The mutable extraction session: the extractor's own fields
(`extracted_ids`, `total_movies`, `failed_requests`, `progress`), the
checkpoint file and CSV rows it owns, the pending operator answers, and
ghost logs of the observable actions taken (page fetches, detail
fetches, identifiers written, partitions abandoned, prompt count). -/
structure SessionSt where
  extracted_ids : List Nat
  total_movies : Nat
  failed_requests : Nat
  progress : Progress
  progressFile : ProgressFileState
  rows : List Record
  choices : List Choice
  prompts : Nat
  pageCalls : List (Nat × Nat)
  detailCalls : List Nat
  writtenIds : List Nat
  abandoned : List (Nat × Nat)
deriving DecidableEq

/-- The external world of one run: the pre-existing CSV, the checkpoint
file on disk, the scripted HTTP attempt outcomes of the API-key test
call, of each discover call (by year and page) and of each detail call
(by movie id), the `PAUSE_ON_ERROR` configuration, and the operator's
queued answers. -/
structure Env where
  csvExists : Bool
  csvIds : List Nat
  progressOnDisk : ProgressFileState
  testEvents : List HttpEvent
  pageEvents : Nat → Nat → List HttpEvent
  detailEvents : Nat → List HttpEvent
  pauseOnError : Bool
  choices : List Choice

/-- `PAUSE_ON_ERROR = True` (the source's configuration constant). -/
def PAUSE_ON_ERROR : Bool := true

/-- `YEARS = [2020, 2021, 2022, 2023, 2024, 2025]`. -/
def YEARS : List Nat := [2020, 2021, 2022, 2023, 2024, 2025]

/-- `TMDbExtractor.load_existing_movie_ids`: identifiers of the rows of
the existing output CSV, empty when the file does not exist. -/
def load_existing_movie_ids (env : Env) : List Nat :=
  if env.csvExists then env.csvIds else []

/-- `TMDbExtractor.should_skip_year`. -/
def should_skip_year (prog : Progress) (year : Nat) : Bool :=
  match prog.last_year with
  | none => false
  | some ly => year < ly

/-- `TMDbExtractor.get_starting_page`. -/
def get_starting_page (prog : Progress) (year : Nat) : Nat :=
  match prog.last_year with
  | some ly => if ly = year then prog.last_page else 1
  | none => 1

/-- `TMDbExtractor.save_progress`: overwrite the checkpoint file with
the current position and session counters. -/
def save_progress (st : SessionSt) (year page : Nat) : SessionSt :=
  { st with progressFile :=
      .valid (save_progress_doc year page st.total_movies st.extracted_ids "") }

/-- Apply the `self.failed_requests` increment that a terminal
fall-out-of-the-retry-loop fetch performs. -/
def recordFetch (st : SessionSt) (failed : Bool) : SessionSt :=
  { st with failed_requests := st.failed_requests + (if failed then 1 else 0) }

/-- `TMDbExtractor.pause_on_error_prompt`: consume the operator's next
answer; with no answer queued the process would block on input forever
(`none`). -/
def pause_on_error_prompt (st : SessionSt) : Option (Choice × SessionSt) :=
  match st.choices with
  | [] => none
  | c :: rest => some (c, { st with choices := rest, prompts := st.prompts + 1 })

/-- The `for movie in results` loop of `run`: skip stubs without a
truthy id, skip ids already in `self.extracted_ids`, otherwise fetch the
detail, transform it and append the row, flushing and recording the id. -/
def processMovies (env : Env) : List PageMovie → SessionSt → SessionSt
  | [], st => st
  | m :: rest, st =>
    match m.id with
    | none => processMovies env rest st
    | some movie_id =>
      if movie_id = 0 then processMovies env rest st
      else if movie_id ∈ st.extracted_ids then processMovies env rest st
      else
        let fr := fetch_with_retry (env.detailEvents movie_id)
        let st1 := { recordFetch st fr.2 with
                       detailCalls := st.detailCalls ++ [movie_id] }
        match fr.1 with
        | some p =>
          match extract_movie_data (some p.asDetail) with
          | some movie_data =>
            processMovies env rest
              { st1 with rows := st1.rows ++ [movie_data],
                         writtenIds := st1.writtenIds ++ [movie_id],
                         extracted_ids := st1.extracted_ids ++ [movie_id],
                         total_movies := st1.total_movies + 1 }
          | none => processMovies env rest st1
        | none => processMovies env rest st1

/-- Result of one iteration of the `while page <= total_pages` body. -/
inductive StepOut where
  | nextIter (page total_pages consecutive_empty : Nat) (st : SessionSt)
  | breakYear (st : SessionSt)
  | stopSession (st : SessionSt)
  | blockedInput (st : SessionSt)
deriving DecidableEq

/-- The state carried by a step result. -/
def StepOut.state : StepOut → SessionSt
  | .nextIter _ _ _ st => st
  | .breakYear st => st
  | .stopSession st => st
  | .blockedInput st => st

/-- One iteration of the `while page <= total_pages` loop body of
`TMDbExtractor.run` (lines 311-410 of the source): fetch the page;
on failure consult the operator (or skip the year when not
interactive); on an empty page bump the consecutive-empty counter and
consult the operator at three; otherwise process the movies; in each
continuing branch advance and checkpoint exactly as the source does. -/
def yearStep (env : Env) (year page total_pages consecutive_empty : Nat)
    (st : SessionSt) : StepOut :=
  let fr := fetch_with_retry (env.pageEvents year page)
  let st := { recordFetch st fr.2 with pageCalls := st.pageCalls ++ [(year, page)] }
  match fr.1 with
  | none =>
    if env.pauseOnError then
      match pause_on_error_prompt st with
      | none => .blockedInput st
      | some (c, st) =>
        match c with
        | .skipYear =>
          .breakYear (save_progress
            { st with abandoned := st.abandoned ++ [(year, page)] } year page)
        | .retryPage => .nextIter page total_pages consecutive_empty st
        | .stopAll => .stopSession (save_progress st year page)
        | .continueAnyway =>
          .nextIter (page + 1) total_pages consecutive_empty
            (save_progress st year (page + 1))
    else
      .breakYear (save_progress
        { st with abandoned := st.abandoned ++ [(year, page)] } year page)
  | some data =>
    let total_pages := min data.getTotalPages 500
    let results := data.getResults
    if results.isEmpty then
      let consecutive_empty := consecutive_empty + 1
      if 3 ≤ consecutive_empty then
        if env.pauseOnError then
          match pause_on_error_prompt st with
          | none => .blockedInput st
          | some (c, st) =>
            match c with
            | .skipYear =>
              .breakYear (save_progress
                { st with abandoned := st.abandoned ++ [(year, page)] } year page)
            | .retryPage => .nextIter page total_pages 0 st
            | .stopAll => .stopSession (save_progress st year page)
            | .continueAnyway =>
              .nextIter (page + 1) total_pages consecutive_empty
                (save_progress st year (page + 1))
        else
          .nextIter (page + 1) total_pages consecutive_empty
            (save_progress st year (page + 1))
      else
        .nextIter (page + 1) total_pages consecutive_empty
          (save_progress st year (page + 1))
    else
      let st := processMovies env results st
      .nextIter (page + 1) total_pages 0 (save_progress st year (page + 1))

/-- How one year's `while` loop ended. -/
inductive YearOut where
  | yearDone (st : SessionSt)
  | sessionStop (st : SessionSt)
  | sessionBlocked (st : SessionSt)
deriving DecidableEq

/-- The state carried by a year outcome. -/
def YearOut.state : YearOut → SessionSt
  | .yearDone st => st
  | .sessionStop st => st
  | .sessionBlocked st => st

/-- The `while page <= total_pages` loop, on fuel (`none` = fuel ran
out before the loop did). -/
def yearLoop (env : Env) (year : Nat) :
    Nat → Nat → Nat → Nat → SessionSt → Option YearOut
  | 0, _, _, _, _ => none
  | fuel + 1, page, total_pages, consecutive_empty, st =>
    if page ≤ total_pages then
      match yearStep env year page total_pages consecutive_empty st with
      | .nextIter p t c st => yearLoop env year fuel p t c st
      | .breakYear st => some (.yearDone st)
      | .stopSession st => some (.sessionStop st)
      | .blockedInput st => some (.sessionBlocked st)
    else
      some (.yearDone st)

/-- How the `for year in YEARS` loop ended. -/
inductive YearsOut where
  | allDone (st : SessionSt)
  | stoppedY (st : SessionSt)
  | blockedY (st : SessionSt)
deriving DecidableEq

/-- The `for year in YEARS` loop of `run`: skip completed years, start
each remaining year at its starting page with `total_pages = 1` and an
empty-page counter of 0. -/
def runYears (env : Env) (fuel : Nat) : List Nat → SessionSt → Option YearsOut
  | [], st => some (.allDone st)
  | year :: rest, st =>
    if should_skip_year st.progress year then runYears env fuel rest st
    else
      match yearLoop env year fuel (get_starting_page st.progress year) 1 0 st with
      | none => none
      | some (.yearDone st) => runYears env fuel rest st
      | some (.sessionStop st) => some (.stoppedY st)
      | some (.sessionBlocked st) => some (.blockedY st)

/-- The session state at the top of `run`, after `__init__` loaded the
progress file and `run` seeded `extracted_ids` from the existing CSV. -/
def initialState (env : Env) : SessionSt :=
  let ids := load_existing_movie_ids env
  { extracted_ids := ids, total_movies := ids.length, failed_requests := 0,
    progress := load_progress env.progressOnDisk,
    progressFile := env.progressOnDisk,
    rows := [], choices := env.choices, prompts := 0, pageCalls := [],
    detailCalls := [], writtenIds := [], abandoned := [] }

/-- How `TMDbExtractor.run` ended. -/
inductive RunOut where
  | completed (st : SessionSt)
  | stoppedEarly (st : SessionSt)
  | blockedRun (st : SessionSt)
  | abortedTest (st : SessionSt)
deriving DecidableEq

/-- The final state of a run outcome. -/
def RunOut.state : RunOut → SessionSt
  | .completed st => st
  | .stoppedEarly st => st
  | .blockedRun st => st
  | .abortedTest st => st

/-- `TMDbExtractor.run`: seed the dedup set from the existing CSV, test
the API key (failure returns before any page is visited), walk all
years, and on falling off the year loop delete the checkpoint file. -/
def run (env : Env) (fuel : Nat) : Option RunOut :=
  let st := initialState env
  let tres := fetch_with_retry env.testEvents
  let st := recordFetch st tres.2
  match tres.1 with
  | none => some (.abortedTest st)
  | some _ =>
    match runYears env fuel YEARS st with
    | none => none
    | some (.allDone st) =>
      some (.completed { st with progressFile := .absent })
    | some (.stoppedY st) => some (.stoppedEarly st)
    | some (.blockedY st) => some (.blockedRun st)

/-! ### Projections of a run result used by the theorems -/

/-- Checkpoint-file state at the end of a run. -/
def runProgressFile : Option RunOut → Option ProgressFileState
  | some o => some o.state.progressFile
  | none => none

/-- Whether the run completed the whole year loop. -/
def runIsCompleted : Option RunOut → Bool
  | some (RunOut.completed _) => true
  | _ => false

/-- Whether the run was stopped early by operator choice 3. -/
def runIsStopped : Option RunOut → Bool
  | some (RunOut.stoppedEarly _) => true
  | _ => false

/-- Whether the run aborted at the startup API-key test. -/
def runIsAborted : Option RunOut → Bool
  | some (RunOut.abortedTest _) => true
  | _ => false

/-- Discover-page fetches (year, page) issued during the run. -/
def runPageCalls : Option RunOut → Option (List (Nat × Nat))
  | some o => some o.state.pageCalls
  | none => none

/-- Movie ids whose rows were written during the run. -/
def runWrittenIds : Option RunOut → Option (List Nat)
  | some o => some o.state.writtenIds
  | none => none

/-- Movie ids detail-fetched during the run. -/
def runDetailCalls : Option RunOut → Option (List Nat)
  | some o => some o.state.detailCalls
  | none => none

/-- Rows written during the run. -/
def runRows : Option RunOut → Option (List Record)
  | some o => some o.state.rows
  | none => none

/-- Number of operator prompts raised during the run. -/
def runPrompts : Option RunOut → Option Nat
  | some o => some o.state.prompts
  | none => none

/-- Partitions abandoned (choice 1 or the non-interactive skip). -/
def runAbandoned : Option RunOut → Option (List (Nat × Nat))
  | some o => some o.state.abandoned
  | none => none

/-! ## Concrete environments used as inputs of the theorems -/

/-- A checkpoint recording that the process was killed while partition
2022 still had pages left: next page to fetch is 5. -/
def doc1 : ProgressDoc :=
  { last_year := some 2022, last_page := 5, total_movies := 120,
    extracted_ids := [], last_updated := "" }

/-- Restart world for the resumability claim: the checkpoint of `doc1`
on disk, and the upstream really has 8 pages of results for 2022. -/
def env1 : Env :=
  { csvExists := false, csvIds := [],
    progressOnDisk := ProgressFileState.valid doc1,
    testEvents := [.ok (.entity {})],
    pageEvents := fun y p =>
      if y = 2022 then [.ok (.pageData [{ id := some (1000 + p) }] (some 8))]
      else [.ok (.pageData [] (some 1))],
    detailEvents := fun i => [.ok (.entity { id := some i })],
    pauseOnError := true, choices := [] }

/-- A checkpoint listing movie 5 as already extracted. -/
def doc2 : ProgressDoc :=
  { last_year := some 2020, last_page := 1, total_movies := 2,
    extracted_ids := [5], last_updated := "" }

/-- Restart world for the dedup claim: the CSV holds id 7, the
checkpoint lists id 5, and page 1 of 2020 offers both. -/
def env2 : Env :=
  { csvExists := true, csvIds := [7],
    progressOnDisk := ProgressFileState.valid doc2,
    testEvents := [.ok (.entity {})],
    pageEvents := fun y _ =>
      if y = 2020 then [.ok (.pageData [{ id := some 5 }, { id := some 7 }] (some 1))]
      else [.ok (.pageData [] (some 1))],
    detailEvents := fun i => [.ok (.entity { id := some i })],
    pauseOnError := true, choices := [] }

/-- World for the authentication claim: page 2 of 2020 answers 401
mid-run; the operator answers choice 4; page 3 still holds movie 9. -/
def env3 : Env :=
  { csvExists := false, csvIds := [],
    progressOnDisk := ProgressFileState.absent,
    testEvents := [.ok (.entity {})],
    pageEvents := fun y p =>
      if y = 2020 then
        if p = 1 then [.ok (.pageData [] (some 3))]
        else if p = 2 then [.httpError 401]
        else [.ok (.pageData [{ id := some 9 }] (some 3))]
      else [.ok (.pageData [] (some 1))],
    detailEvents := fun i => [.ok (.entity { id := some i })],
    pauseOnError := true, choices := [Choice.continueAnyway] }

/-- World for the checkpoint-deletion claim: every request for 2020
fails in transport, the operator abandons the year with choice 1, the
remaining years complete. -/
def env4 : Env :=
  { csvExists := false, csvIds := [],
    progressOnDisk := ProgressFileState.absent,
    testEvents := [.ok (.entity {})],
    pageEvents := fun y _ =>
      if y = 2020 then [] else [.ok (.pageData [] (some 1))],
    detailEvents := fun _ => [],
    pauseOnError := true, choices := [Choice.skipYear] }

/-- As `env4` but the operator stops the whole session (choice 3). -/
def env5 : Env := { env4 with choices := [Choice.stopAll] }

/-- World whose API-key test answers 401. -/
def envAuth : Env :=
  { csvExists := false, csvIds := [],
    progressOnDisk := ProgressFileState.valid doc2,
    testEvents := [.httpError 401],
    pageEvents := fun _ _ => [],
    detailEvents := fun _ => [],
    pauseOnError := true, choices := [] }

/-- World for the empty-page claim: used to instantiate the
consecutive-empty-pages theorem at a concrete state. -/
def env6 : Env :=
  { csvExists := false, csvIds := [],
    progressOnDisk := ProgressFileState.absent,
    testEvents := [.ok (.entity {})],
    pageEvents := fun _ _ => [.ok (.pageData [] (some 7))],
    detailEvents := fun _ => [],
    pauseOnError := true, choices := [Choice.retryPage] }

/-! ## Claim theorems -/

/-- C1: the claim that a restart with a checkpoint at page 5 of
partition 2022 resumes there and fetches the remaining pages is wrong on
the code.  In `env1` the checkpoint records page 5 of 2022 and the
upstream has 8 pages of results for 2022, `get_starting_page` indeed
computes 5, yet the run fetches no page of 2022 at all (the `while page
<= total_pages` loop is entered with `total_pages` initialized to 1, so
`5 <= 1` fails immediately), writes nothing, marks the year complete and
even deletes the checkpoint. -/
theorem C1_resume_skips_checkpointed_partition :
    get_starting_page (load_progress env1.progressOnDisk) 2022 = 5 ∧
    runIsCompleted (run env1 20) = true ∧
    runPageCalls (run env1 20) = some [(2023, 1), (2024, 1), (2025, 1)] ∧
    runWrittenIds (run env1 20) = some [] := by
  refine ⟨by decide, by decide, by decide, by decide⟩

/-- C2 counterexample: identifier 5 is listed in the checkpoint document
read at startup (`doc2`), is absent from the output CSV, and the run
nevertheless detail-fetches it and writes it again — the dedup set is
seeded from the CSV only, never from the checkpoint's
`extracted_ids`. -/
theorem C2_counterexample_checkpoint_id_refetched :
    5 ∈ (load_progress env2.progressOnDisk).extracted_ids ∧
    runDetailCalls (run env2 20) = some [5] ∧
    runWrittenIds (run env2 20) = some [5] := by
  refine ⟨by decide, by decide, by decide⟩

/-- C3 counterexample: in `env3` the discover fetch of page 2 of 2020
receives status 401, yet the session does not terminate: the failure is
routed to the operator prompt like any other failed page (one prompt is
raised), and after choice 4 the run continues and writes a brand-new
record (movie 9), finishing the whole year loop. -/
theorem C3_counterexample_auth_not_terminal :
    env3.pageEvents 2020 2 = [HttpEvent.httpError 401] ∧
    runPrompts (run env3 30) = some 1 ∧
    runWrittenIds (run env3 30) = some [9] ∧
    runIsCompleted (run env3 30) = true := by
  refine ⟨by decide, by decide, by decide, by decide⟩

/-- C4 counterexample: in `env4` partition 2020 is abandoned through
operator choice 1 after a failed page, so it never completed
successfully, yet at the end of the run the checkpoint document is
deleted anyway (deletion happens whenever the year loop runs off its
end, abandoned partitions included). -/
theorem C4_counterexample_abandon_still_deletes :
    runAbandoned (run env4 20) = some [(2020, 1)] ∧
    runIsCompleted (run env4 20) = true ∧
    runProgressFile (run env4 20) = some ProgressFileState.absent := by
  refine ⟨by decide, by decide, by decide⟩

/-- C5 counterexample: a call whose three attempts all receive status
429 — no other failure at all — ends terminally (`None`) and increments
the session failure counter: the quota-exceeded retry does consume the
fixed retry budget (`continue` advances the `for attempt` loop). -/
theorem C5_counterexample_quota_exhausts_budget :
    fetch_with_retry
      [HttpEvent.rateLimited, HttpEvent.rateLimited, HttpEvent.rateLimited] =
      (none, true) := by decide

/-- C5 amended: on HTTP 429 the client sleeps and retries the same
request, but the retry consumes one of the `MAX_RETRIES` attempts, so
`MAX_RETRIES` consecutive quota responses exhaust the budget and the
call fails terminally. -/
theorem C5_amended_quota_retry_consumes_attempt :
    (∀ (n : Nat) (evs : List HttpEvent),
        fetchGo (n + 1) (HttpEvent.rateLimited :: evs) = fetchGo n evs) ∧
    fetch_with_retry
      [HttpEvent.rateLimited, HttpEvent.rateLimited, HttpEvent.rateLimited] =
      (none, true) :=
  ⟨fun _ _ => rfl, by decide⟩

/-- C7: saving a checkpoint and reloading it reproduces the partition
key, the page, the cumulative count and the same set of extracted
identifiers. -/
theorem C7_checkpoint_roundtrip :
    ∀ (year page total : Nat) (ids : List Nat) (ts : String),
    (load_progress (ProgressFileState.valid
        (save_progress_doc year page total ids ts))).last_year = some year ∧
    (load_progress (ProgressFileState.valid
        (save_progress_doc year page total ids ts))).last_page = page ∧
    (load_progress (ProgressFileState.valid
        (save_progress_doc year page total ids ts))).total_movies = total ∧
    (∀ i : Nat,
      i ∈ (load_progress (ProgressFileState.valid
        (save_progress_doc year page total ids ts))).extracted_ids ↔ i ∈ ids) :=
  fun _ _ _ _ _ => ⟨rfl, rfl, rfl, fun _ => Iff.rfl⟩

/-- C10: a checkpoint file that exists but cannot be parsed is loaded
exactly like an absent one — the empty progress dict (no partition key,
page 0, zero count, no identifiers) — so a corrupt checkpoint restarts
the run from scratch instead of failing at startup. -/
theorem C10_corrupt_checkpoint_like_absent :
    load_progress ProgressFileState.corrupt = load_progress ProgressFileState.absent ∧
    load_progress ProgressFileState.corrupt =
      { last_year := none, last_page := 0, total_movies := 0, extracted_ids := [] } :=
  ⟨rfl, rfl⟩

/-- The detail payload of the record-transformation claim: crew
Director "A" then Producer "B", a cast given by `castNames`, genres
Drama and Thriller. -/
def c8detail (castNames : List String) : Detail :=
  { credits := some
      { crew := [{ name := some "A", job := some "Director" },
                 { name := some "B", job := some "Producer" }],
        cast := castNames.map (fun n => { name := some n, job := none }) },
    genres := [{ name := some "Drama" }, { name := some "Thriller" }] }

/-- C8: on a payload with crew `[A/Director, B/Producer]`, a cast of 12
entries and genres `[Drama, Thriller]`, the transformer yields director
"A", the first 10 cast names in original order joined by the fixed
delimiter, and genre field "Drama, Thriller". -/
theorem C8_record_transformation : ∀ (castNames : List String),
    castNames.length = 12 →
    (extract_movie_data (some (c8detail castNames))).map Record.director = some "A" ∧
    (extract_movie_data (some (c8detail castNames))).map Record.cast =
      some (String.intercalate ", " (castNames.take 10)) ∧
    (extract_movie_data (some (c8detail castNames))).map Record.genres =
      some "Drama, Thriller" := by
  intro castNames _
  refine ⟨rfl, ?_, rfl⟩
  simp only [extract_movie_data, c8detail, Option.map]
  congr 1
  have hg : ((fun (p : Person) => p.name.getD "") ∘
      fun n => ({ name := some n, job := none } : Person)) = id := by
    funext n; rfl
  rw [← List.map_take, List.map_map, hg, List.map_id]

/-- Witness for C8 at a concrete 12-entry cast. -/
theorem C8_record_transformation_witness :
    (["n01","n02","n03","n04","n05","n06","n07","n08","n09","n10","n11","n12"] :
        List String).length = 12 ∧
    ((extract_movie_data (some (c8detail
        ["n01","n02","n03","n04","n05","n06","n07","n08","n09","n10","n11","n12"]))).map
        Record.director = some "A" ∧
     (extract_movie_data (some (c8detail
        ["n01","n02","n03","n04","n05","n06","n07","n08","n09","n10","n11","n12"]))).map
        Record.cast =
       some (String.intercalate ", "
         (["n01","n02","n03","n04","n05","n06","n07","n08","n09","n10","n11","n12"].take 10)) ∧
     (extract_movie_data (some (c8detail
        ["n01","n02","n03","n04","n05","n06","n07","n08","n09","n10","n11","n12"]))).map
        Record.genres = some "Drama, Thriller") :=
  ⟨by decide, C8_record_transformation _ (by decide)⟩

/-- C9: the derived `year` field is the first four characters of the
release date whenever one is present (Python's falsy check on the empty
string collapses to the same result), and empty when it is absent; in
particular "2021-07-04" yields "2021". -/
theorem C9_year_from_release_date :
    (∀ d : Detail, (extract_movie_data (some d)).map Record.year =
        some (match d.release_date with
              | some s => strTake s 4
              | none => "")) ∧
    (extract_movie_data (some { release_date := some "2021-07-04" })).map
        Record.year = some "2021" := by
  constructor
  · intro d
    simp only [extract_movie_data, Option.map]
    cases hrd : d.release_date with
    | none => simp [hrd]
    | some s =>
      simp only [hrd]
      by_cases hs : s = ""
      · subst hs; simp [strTake]
      · simp [hs]
  · decide

/-- C6: when the third consecutive successful-but-empty page of a
partition arrives (the counter stood at 2 and this fetch returns zero
results), the loop body raises the operator prompt — whatever the
operator answers, the prompt count increases — rather than silently
ending or continuing the partition; and answer 2 (retry) re-enters the
loop at the same page with the consecutive-empty counter reset to 0. -/
theorem C6_three_empty_pages_prompt :
    ∀ (env : Env) (year page total_pages : Nat) (st : SessionSt)
      (d : Payload) (c : Choice) (rest : List Choice),
      env.pauseOnError = true →
      (fetch_with_retry (env.pageEvents year page)).1 = some d →
      d.getResults = [] →
      st.choices = c :: rest →
      (yearStep env year page total_pages 2 st).state.prompts = st.prompts + 1 ∧
      (c = Choice.retryPage → ∃ st',
        yearStep env year page total_pages 2 st =
          StepOut.nextIter page (min d.getTotalPages 500) 0 st' ∧
        st'.prompts = st.prompts + 1 ∧ st'.choices = rest) := by
  intro env year page total_pages st d c rest hpause hfetch hres hch
  simp only [yearStep, recordFetch]
  rw [hfetch]
  simp only [hres, List.isEmpty_nil, hpause, if_true, pause_on_error_prompt, hch]
  norm_num
  cases c with
  | skipYear => simp [StepOut.state, save_progress]
  | retryPage =>
    refine ⟨by simp [StepOut.state], fun _ => ⟨_, rfl, by simp, by simp⟩⟩
  | stopAll => simp [StepOut.state, save_progress]
  | continueAnyway => simp [StepOut.state, save_progress]

/-- Witness for C6 in the concrete world `env6` (an empty page of a
7-page year, operator answer queue `[retry]`). -/
theorem C6_three_empty_pages_prompt_witness :
    env6.pauseOnError = true ∧
    (fetch_with_retry (env6.pageEvents 2020 1)).1 =
      some (Payload.pageData [] (some 7)) ∧
    (Payload.pageData [] (some 7)).getResults = [] ∧
    (initialState env6).choices = Choice.retryPage :: [] ∧
    ((yearStep env6 2020 1 7 2 (initialState env6)).state.prompts =
        (initialState env6).prompts + 1 ∧
     (Choice.retryPage = Choice.retryPage → ∃ st',
        yearStep env6 2020 1 7 2 (initialState env6) =
          StepOut.nextIter 1 (min (Payload.pageData [] (some 7)).getTotalPages 500)
            0 st' ∧
        st'.prompts = (initialState env6).prompts + 1 ∧ st'.choices = [])) :=
  ⟨rfl, by decide, by decide, by decide,
    C6_three_empty_pages_prompt env6 2020 1 7 (initialState env6)
      (Payload.pageData [] (some 7)) Choice.retryPage [] rfl (by decide)
      (by decide) (by decide)⟩

/-- C3 amended: a 401/403 response makes the fetch fatal at once — no
further attempt, no further event consumed — but it is surfaced as the
same generic `None` the caller gets for any exhausted failure (only the
session-wide failure counter differs), not as a distinct error kind.
The session as a whole terminates only when the startup API-key test
fails this way, and then indeed without writing any record and with the
checkpoint file untouched; an auth failure mid-run goes through the
operator prompt instead (see the counterexample). -/
theorem C3_amended_auth_fatal_not_distinct :
    (∀ (n : Nat) (evs : List HttpEvent),
        fetchGo (n + 1) (HttpEvent.httpError 401 :: evs) = (none, false) ∧
        fetchGo (n + 1) (HttpEvent.httpError 403 :: evs) = (none, false)) ∧
    (∀ (env : Env) (fuel : Nat), runIsAborted (run env fuel) = true →
        runRows (run env fuel) = some [] ∧
        runWrittenIds (run env fuel) = some [] ∧
        runProgressFile (run env fuel) = some env.progressOnDisk) ∧
    (∀ (env : Env) (fuel : Nat), env.testEvents = [HttpEvent.httpError 401] →
        runIsAborted (run env fuel) = true) := by
  refine ⟨?_, ?_, ?_⟩
  · intro n evs
    constructor <;> simp [fetchGo]
  · intro env fuel h
    simp only [run] at h ⊢
    cases htres : (fetch_with_retry env.testEvents).1 with
    | none =>
      simp [runRows, runWrittenIds, runProgressFile, RunOut.state, recordFetch,
        initialState]
    | some p =>
      rw [htres] at h
      cases hys : runYears env fuel YEARS
          (recordFetch (initialState env) (fetch_with_retry env.testEvents).2) with
      | none => rw [hys] at h; simp [runIsAborted] at h
      | some o =>
        rw [hys] at h
        cases o <;> simp [runIsAborted] at h
  · intro env fuel h
    simp only [run, h]
    simp [fetch_with_retry, fetchGo, runIsAborted]

/-- Witness for C3 amended in the world `envAuth` whose API-key test
answers 401. -/
theorem C3_amended_auth_fatal_not_distinct_witness :
    fetchGo (2 + 1) (HttpEvent.httpError 401 :: []) = (none, false) ∧
    envAuth.testEvents = [HttpEvent.httpError 401] ∧
    runIsAborted (run envAuth 5) = true ∧
    runRows (run envAuth 5) = some [] ∧
    runWrittenIds (run envAuth 5) = some [] ∧
    runProgressFile (run envAuth 5) = some envAuth.progressOnDisk := by
  have h := C3_amended_auth_fatal_not_distinct
  have haborted : runIsAborted (run envAuth 5) = true := h.2.2 envAuth 5 rfl
  have hrest := h.2.1 envAuth 5 haborted
  exact ⟨(h.1 2 []).1, rfl, haborted, hrest.1, hrest.2.1, hrest.2.2⟩

/-- Helper for C4: a loop-body step that stops the session (choice 3)
always saved the checkpoint first, so the resulting state carries a
valid checkpoint document. -/
theorem yearStep_stopSession_saved (env : Env) (year page tp ce : Nat)
    (st st' : SessionSt)
    (h : yearStep env year page tp ce st = StepOut.stopSession st') :
    ∃ d, st'.progressFile = ProgressFileState.valid d := by
  simp only [yearStep, recordFetch] at h
  repeat' split at h
  all_goals try injection h
  all_goals subst st'
  all_goals exact ⟨_, rfl⟩

/-- Helper for C4: `yearStep_stopSession_saved` lifted through the
`while` loop. -/
theorem yearLoop_stopSession_saved (env : Env) (year : Nat) :
    ∀ (fuel page tp ce : Nat) (st st' : SessionSt),
    yearLoop env year fuel page tp ce st = some (YearOut.sessionStop st') →
    ∃ d, st'.progressFile = ProgressFileState.valid d := by
  intro fuel
  induction fuel with
  | zero => intro page tp ce st st' h; simp [yearLoop] at h
  | succ n ih =>
    intro page tp ce st st' h
    simp only [yearLoop] at h
    by_cases hp : page ≤ tp
    · rw [if_pos hp] at h
      cases hstep : yearStep env year page tp ce st with
      | nextIter p t c st2 => rw [hstep] at h; exact ih p t c st2 st' h
      | breakYear st2 => rw [hstep] at h; simp at h
      | stopSession st2 =>
        rw [hstep] at h
        simp at h
        subst h
        exact yearStep_stopSession_saved env year page tp ce st st2 hstep
      | blockedInput st2 => rw [hstep] at h; simp at h
    · rw [if_neg hp] at h; simp at h

/-- Helper for C4: `yearLoop_stopSession_saved` lifted through the
`for year in YEARS` loop. -/
theorem runYears_stoppedY_saved (env : Env) (fuel : Nat) :
    ∀ (ys : List Nat) (st st' : SessionSt),
    runYears env fuel ys st = some (YearsOut.stoppedY st') →
    ∃ d, st'.progressFile = ProgressFileState.valid d := by
  intro ys
  induction ys with
  | nil => intro st st' h; simp [runYears] at h
  | cons y rest ih =>
    intro st st' h
    simp only [runYears] at h
    by_cases hskip : should_skip_year st.progress y = true
    · rw [if_pos hskip] at h; exact ih st st' h
    · rw [if_neg hskip] at h
      cases hyl : yearLoop env y fuel (get_starting_page st.progress y) 1 0 st with
      | none => rw [hyl] at h; cases h
      | some yo =>
        rw [hyl] at h
        cases yo with
        | yearDone st2 => exact ih st2 st' h
        | sessionStop st2 =>
          simp at h
          subst h
          exact yearLoop_stopSession_saved env y fuel
            (get_starting_page st.progress y) 1 0 st st2 hyl
        | sessionBlocked st2 => simp at h

/-- C4 amended: the checkpoint document is deleted exactly when the year
loop runs off its end — which, as the counterexample shows, includes
runs in which a partition was abandoned by choice 1 or the
non-interactive skip — and a session stopped early by choice 3 always
leaves a valid checkpoint document on disk. -/
theorem C4_amended_delete_iff_loop_finishes : ∀ (env : Env) (fuel : Nat),
    (runIsCompleted (run env fuel) = true →
       runProgressFile (run env fuel) = some ProgressFileState.absent) ∧
    (runIsStopped (run env fuel) = true →
       ∃ d, runProgressFile (run env fuel) = some (ProgressFileState.valid d)) := by
  intro env fuel
  simp only [run]
  cases htres : (fetch_with_retry env.testEvents).1 with
  | none =>
    constructor <;> intro h <;> simp [runIsCompleted, runIsStopped] at h
  | some p =>
    cases hys : runYears env fuel YEARS
        (recordFetch (initialState env) (fetch_with_retry env.testEvents).2) with
    | none =>
      constructor <;> intro h <;> simp [runIsCompleted, runIsStopped] at h
    | some o =>
      cases o with
      | allDone st =>
        constructor
        · intro _; simp [runProgressFile, RunOut.state]
        · intro h; simp [runIsStopped] at h
      | stoppedY st =>
        constructor
        · intro h; simp [runIsCompleted] at h
        · intro _
          obtain ⟨d, hd⟩ := runYears_stoppedY_saved env fuel YEARS _ st hys
          exact ⟨d, by simp [runProgressFile, RunOut.state, hd]⟩
      | blockedY st =>
        constructor <;> intro h <;> simp [runIsCompleted, runIsStopped] at h

/-- Witness for C4 amended: in `env4` the run completes (after an
abandoned partition) and the checkpoint is gone; in `env5` the operator
stops the session and a valid checkpoint survives. -/
theorem C4_amended_delete_iff_loop_finishes_witness :
    (runIsCompleted (run env4 20) = true ∧
     runProgressFile (run env4 20) = some ProgressFileState.absent) ∧
    (runIsStopped (run env5 20) = true ∧
     ∃ d, runProgressFile (run env5 20) = some (ProgressFileState.valid d)) :=
  ⟨⟨by decide, (C4_amended_delete_iff_loop_finishes env4 20).1 (by decide)⟩,
   ⟨by decide, (C4_amended_delete_iff_loop_finishes env5 20).2 (by decide)⟩⟩

/-- The dedup property tracked for one identifier `i`: it is in the
in-memory dedup set and has been neither detail-fetched nor written
during this run. -/
def DedupInv (i : Nat) (st : SessionSt) : Prop :=
  i ∈ st.extracted_ids ∧ i ∉ st.detailCalls ∧ i ∉ st.writtenIds

/-- Helper for C2: the movie loop never detail-fetches or writes an
identifier that is already in the dedup set, and the set only grows. -/
theorem dedupInv_processMovies (env : Env) (i : Nat) :
    ∀ (ms : List PageMovie) (st : SessionSt),
    DedupInv i st → DedupInv i (processMovies env ms st) := by
  intro ms
  induction ms with
  | nil => intro st h; simpa [processMovies] using h
  | cons m rest ih =>
    intro st h
    simp only [processMovies]
    cases hm : m.id with
    | none => exact ih st h
    | some movie_id =>
      dsimp only
      by_cases hz : movie_id = 0
      · rw [if_pos hz]; exact ih st h
      · rw [if_neg hz]
        by_cases hmem : movie_id ∈ st.extracted_ids
        · rw [if_pos hmem]; exact ih st h
        · rw [if_neg hmem]
          obtain ⟨h1, h2, h3⟩ := h
          have hne : i ≠ movie_id := fun he => hmem (he ▸ h1)
          cases hfr : (fetch_with_retry (env.detailEvents movie_id)).1 with
          | none =>
            apply ih
            refine ⟨h1, ?_, h3⟩
            simp [recordFetch, List.mem_append, h2, hne]
          | some p =>
            apply ih
            refine ⟨?_, ?_, ?_⟩ <;>
              simp [recordFetch, List.mem_append, h1, h2, h3, hne]

/-- Helper for C2: one iteration of the page loop preserves the dedup
property of every identifier already in the set. -/
theorem dedupInv_yearStep (env : Env) (i : Nat) (year page tp ce : Nat)
    (st : SessionSt) (h : DedupInv i st) :
    DedupInv i (yearStep env year page tp ce st).state := by
  obtain ⟨h1, h2, h3⟩ := h
  obtain ⟨ids, tm, frq, prog, pf, rows, chs, prm, pc, dc, wi, ab⟩ := st
  simp only [yearStep, recordFetch, pause_on_error_prompt]
  cases chs with
  | nil =>
    dsimp only
    repeat' split
    all_goals try apply dedupInv_processMovies
    all_goals simp_all [DedupInv, StepOut.state, save_progress]
  | cons c0 rest =>
    cases c0 <;>
      (dsimp only
       repeat' split
       all_goals try apply dedupInv_processMovies
       all_goals simp_all [DedupInv, StepOut.state, save_progress])

/-- Helper for C2: `dedupInv_yearStep` lifted through the `while`
loop. -/
theorem dedupInv_yearLoop (env : Env) (i : Nat) (year : Nat) :
    ∀ (fuel page tp ce : Nat) (st : SessionSt) (out : YearOut),
    yearLoop env year fuel page tp ce st = some out →
    DedupInv i st → DedupInv i out.state := by
  intro fuel
  induction fuel with
  | zero => intro page tp ce st out h _; simp [yearLoop] at h
  | succ n ih =>
    intro page tp ce st out h hInv
    simp only [yearLoop] at h
    by_cases hp : page ≤ tp
    · rw [if_pos hp] at h
      cases hstep : yearStep env year page tp ce st with
      | nextIter p t c st2 =>
        rw [hstep] at h
        have := dedupInv_yearStep env i year page tp ce st hInv
        rw [hstep] at this
        exact ih p t c st2 out h this
      | breakYear st2 =>
        rw [hstep] at h
        simp at h
        subst h
        have := dedupInv_yearStep env i year page tp ce st hInv
        rwa [hstep] at this
      | stopSession st2 =>
        rw [hstep] at h
        simp at h
        subst h
        have := dedupInv_yearStep env i year page tp ce st hInv
        rwa [hstep] at this
      | blockedInput st2 =>
        rw [hstep] at h
        simp at h
        subst h
        have := dedupInv_yearStep env i year page tp ce st hInv
        rwa [hstep] at this
    · rw [if_neg hp] at h
      simp at h
      subst h
      exact hInv

/-- Helper for C2: `dedupInv_yearLoop` lifted through the year loop. -/
theorem dedupInv_runYears (env : Env) (i : Nat) (fuel : Nat) :
    ∀ (ys : List Nat) (st : SessionSt) (out : YearsOut),
    runYears env fuel ys st = some out →
    DedupInv i st →
    (∀ st2, out = YearsOut.allDone st2 → DedupInv i st2) ∧
    (∀ st2, out = YearsOut.stoppedY st2 → DedupInv i st2) ∧
    (∀ st2, out = YearsOut.blockedY st2 → DedupInv i st2) := by
  intro ys
  induction ys with
  | nil =>
    intro st out h hInv
    simp only [runYears] at h
    refine ⟨?_, ?_, ?_⟩ <;> intro st2 ho <;> subst ho <;> simp_all
  | cons y rest ih =>
    intro st out h hInv
    simp only [runYears] at h
    by_cases hskip : should_skip_year st.progress y = true
    · rw [if_pos hskip] at h; exact ih st out h hInv
    · rw [if_neg hskip] at h
      cases hyl : yearLoop env y fuel (get_starting_page st.progress y) 1 0 st with
      | none => rw [hyl] at h; cases h
      | some yo =>
        rw [hyl] at h
        have hyo := dedupInv_yearLoop env i y fuel
          (get_starting_page st.progress y) 1 0 st yo hyl hInv
        cases yo with
        | yearDone st2 => exact ih st2 out h hyo
        | sessionStop st2 =>
          simp at h
          subst h
          refine ⟨?_, ?_, ?_⟩ <;> intro st3 ho <;> cases ho
          exact hyo
        | sessionBlocked st2 =>
          simp at h
          subst h
          refine ⟨?_, ?_, ?_⟩ <;> intro st3 ho <;> cases ho
          exact hyo

/-- C2 amended: the dedup set is seeded from the existing output
dataset only — the checkpoint's `extracted_ids` are written but never
read back into it (see the counterexample) — and an identifier present
in the output dataset at startup is never detail-fetched again and never
written again, whatever the environment does. -/
theorem C2_amended_csv_ids_never_refetched :
    ∀ (env : Env) (fuel : Nat) (out : RunOut) (i : Nat),
    run env fuel = some out →
    i ∈ load_existing_movie_ids env →
    i ∉ out.state.detailCalls ∧ i ∉ out.state.writtenIds := by
  intro env fuel out i hrun hmem
  have hInit : DedupInv i (recordFetch (initialState env)
      (fetch_with_retry env.testEvents).2) := by
    refine ⟨?_, ?_, ?_⟩ <;> simp [initialState, recordFetch, hmem]
  simp only [run] at hrun
  cases htres : (fetch_with_retry env.testEvents).1 with
  | none =>
    rw [htres] at hrun
    simp at hrun
    subst hrun
    exact ⟨hInit.2.1, hInit.2.2⟩
  | some p =>
    rw [htres] at hrun
    cases hys : runYears env fuel YEARS
        (recordFetch (initialState env) (fetch_with_retry env.testEvents).2) with
    | none => rw [hys] at hrun; cases hrun
    | some o =>
      rw [hys] at hrun
      have hprop := dedupInv_runYears env i fuel YEARS _ o hys hInit
      cases o with
      | allDone st =>
        simp at hrun
        subst hrun
        have := hprop.1 st rfl
        exact ⟨this.2.1, this.2.2⟩
      | stoppedY st =>
        simp at hrun
        subst hrun
        have := hprop.2.1 st rfl
        exact ⟨this.2.1, this.2.2⟩
      | blockedY st =>
        simp at hrun
        subst hrun
        have := hprop.2.2 st rfl
        exact ⟨this.2.1, this.2.2⟩

/-- The outcome of the `env2` run, used to instantiate the C2 amended
theorem. -/
def out2 : RunOut := (run env2 20).getD (RunOut.abortedTest (initialState env2))

/-- Witness for C2 amended: identifier 7 sits in the pre-existing CSV of
`env2` and the run neither detail-fetches nor rewrites it, even though
page 1 of 2020 offers it. -/
theorem C2_amended_csv_ids_never_refetched_witness :
    run env2 20 = some out2 ∧
    7 ∈ load_existing_movie_ids env2 ∧
    (7 ∉ out2.state.detailCalls ∧ 7 ∉ out2.state.writtenIds) :=
  ⟨by decide, by decide,
   C2_amended_csv_ids_never_refetched env2 20 out2 7 (by decide) (by decide)⟩

end TMDb
